import Mathlib

/-!
Shallow embedding of the EcoFinds marketplace backend (Express routes over a
Drizzle/PostgreSQL storage layer) and of two client-side computations
(cart-quantity clamping and the impact-metrics display), together with
theorems settling the specification's claims about order placement, cart
handling, payment intents, product views, the carbon counter and the impact
metrics.

Monetary and carbon amounts are `decimal` columns read through `parseFloat`
in the source; they are modelled as rationals.  Quantities are integer
columns and are modelled as `Int` (the server accepts any integer from the
request body).  Row ids are strings; ids generated by the database
(`gen_random_uuid()`) are passed in as explicit fresh-id parameters.
-/

namespace EcoFinds

/-- A row of the `users` table (the fields the claims depend on:
`id` and the cumulative `total_carbon_saved` counter). -/
structure UserRow where
  id : String
  totalCarbonSaved : ℚ
deriving Repr, DecidableEq

/-- A row of the `products` table (fields used by the routes under study). -/
structure ProductRow where
  id : String
  sellerId : String
  title : String
  price : ℚ
  carbonSaved : ℚ
  available : Bool
  views : Nat
deriving Repr, DecidableEq

/-- A `Partial<InsertProduct>` update payload for `updateProduct`: each field
is optionally replaced; `id` and `views` are omitted from the insert schema
and hence can never be set by an update. -/
structure ProductUpdate where
  sellerId : Option String
  title : Option String
  price : Option ℚ
  carbonSaved : Option ℚ
  available : Option Bool
deriving Repr, DecidableEq

/-- Apply a partial update to a product row, as `db.update(products).set({...updates})`
does: present fields overwrite, absent fields keep their stored value;
`id` and `views` are untouchable. -/
def applyProductUpdate (u : ProductUpdate) (p : ProductRow) : ProductRow :=
  { p with
    sellerId := u.sellerId.getD p.sellerId
    title := u.title.getD p.title
    price := u.price.getD p.price
    carbonSaved := u.carbonSaved.getD p.carbonSaved
    available := u.available.getD p.available }

/-- A row of the `cart_items` table. -/
structure CartItemRow where
  id : String
  userId : String
  productId : String
  quantity : Int
deriving Repr, DecidableEq

/-- A row of the `orders` table (fields set by `POST /api/create-order`).
`totalCarbonSaved` is a nullable column, hence an `Option`. -/
structure OrderRow where
  id : String
  buyerId : String
  totalAmount : ℚ
  status : String
  shippingAddress : String
  paymentIntentId : String
  totalCarbonSaved : Option ℚ
deriving Repr, DecidableEq

/-- A row of the `order_items` table (its own generated id is irrelevant to
every claim and is not modelled). -/
structure OrderItemRow where
  orderId : String
  productId : String
  sellerId : String
  price : ℚ
  quantity : Int
  carbonSaved : ℚ
deriving Repr, DecidableEq

/-- A payment intent created at the external payment processor
(`stripe.paymentIntents.create`): amount in cents after `Math.round(amount * 100)`,
with the metadata the route attaches. -/
structure PaymentIntentRec where
  userId : String
  amountCents : Int
  cartItemIds : List String
deriving Repr, DecidableEq

/-- The mutable state of the system: the relational tables plus the list of
payment intents created at the external processor. -/
structure State where
  users : List UserRow
  products : List ProductRow
  cartItems : List CartItemRow
  orders : List OrderRow
  orderItems : List OrderItemRow
  paymentIntents : List PaymentIntentRec
deriving Repr, DecidableEq

/-! ### Storage layer (`DatabaseStorage`) -/

/-- `updateUserCarbonSaved`: `SET total_carbon_saved = total_carbon_saved + delta`
on the row with the given id. -/
def updateUserCarbonSaved (st : State) (uid : String) (delta : ℚ) : State :=
  { st with users := st.users.map fun u =>
      if u.id = uid then { u with totalCarbonSaved := u.totalCarbonSaved + delta } else u }

/-- `incrementProductViews`: `SET views = views + 1` on the row with the given id. -/
def incrementProductViews (st : State) (pid : String) : State :=
  { st with products := st.products.map fun p =>
      if p.id = pid then { p with views := p.views + 1 } else p }

/-- `updateProduct`: apply a partial update to the product with the given id. -/
def updateProduct (st : State) (pid : String) (u : ProductUpdate) : State :=
  { st with products := st.products.map fun p =>
      if p.id = pid then applyProductUpdate u p else p }

/-- `createProduct`: insert a product row; `views` is omitted from the insert
schema so the column default 0 applies. -/
def createProduct (st : State) (p : ProductRow) : State :=
  { st with products := st.products ++ [{ p with views := 0 }] }

/-- `deleteProduct`: delete the product row with the given id. -/
def deleteProduct (st : State) (pid : String) : State :=
  { st with products := st.products.filter fun p => p.id ≠ pid }

/-- `getProduct`: `products INNER JOIN users ON seller_id = users.id` filtered
by the product id — `none` when the product (or, under the inner join, its
seller row) is absent. -/
def getProduct (st : State) (pid : String) : Option (ProductRow × UserRow) :=
  match st.products.find? (fun p => decide (p.id = pid)) with
  | none => none
  | some p =>
    match st.users.find? (fun u => decide (u.id = p.sellerId)) with
    | none => none
    | some u => some (p, u)

/-- `addToCart`: insert a cart row. -/
def addToCart (st : State) (c : CartItemRow) : State :=
  { st with cartItems := st.cartItems ++ [c] }

/-- `updateCartItem`: `SET quantity = q` on the cart row with the given id —
the storage layer stores whatever quantity it is handed. -/
def updateCartItem (st : State) (cid : String) (q : Int) : State :=
  { st with cartItems := st.cartItems.map fun c =>
      if c.id = cid then { c with quantity := q } else c }

/-- `removeFromCart`: delete the cart row with the given id (a no-op when no
row has that id, and with no ownership check). -/
def removeFromCart (st : State) (cid : String) : State :=
  { st with cartItems := st.cartItems.filter fun c => c.id ≠ cid }

/-- A `CartItemWithProduct`: a cart row joined with its product row. -/
structure CartLine where
  item : CartItemRow
  product : ProductRow
deriving Repr, DecidableEq

/-- `getCartItems`: cart rows of the user, `INNER JOIN products` on
`product_id` restricted to `products.available = true`, `INNER JOIN users`
on the product's seller — rows whose product is unavailable (or missing, or
whose seller row is missing) are omitted. -/
def getCartItems (st : State) (uid : String) : List CartLine :=
  st.cartItems.filterMap fun c =>
    if c.userId = uid then
      match st.products.find? (fun p => decide (p.id = c.productId) && p.available) with
      | some p => if st.users.any (fun u => decide (u.id = p.sellerId)) then some ⟨c, p⟩ else none
      | none => none
    else none

/-- `createOrder`: insert an order row. -/
def createOrder (st : State) (o : OrderRow) : State :=
  { st with orders := st.orders ++ [o] }

/-- `createOrderItems`: insert a batch of order-item rows. -/
def createOrderItems (st : State) (items : List OrderItemRow) : State :=
  { st with orderItems := st.orderItems ++ items }

/-! ### Route handlers (`registerRoutes`) -/

/-- The error classes the routes under study return. -/
inductive HErr where
  | badRequest
  | notFound
  | serviceUnavailable
deriving Repr, DecidableEq

/-- `GET /api/products/:id`: 404 when `getProduct` finds nothing, otherwise
respond with the joined product and bump its view counter. -/
def getProductRoute (st : State) (pid : String) :
    Except HErr (ProductRow × UserRow) × State :=
  match getProduct st pid with
  | none => (Except.error HErr.notFound, st)
  | some pr => (Except.ok pr, incrementProductViews st pid)

/-- `PUT /api/cart/:id`: the handler passes the request-body quantity straight
to `updateCartItem` with no validation of any kind. -/
def putCartRoute (st : State) (cid : String) (q : Int) : Except HErr Unit × State :=
  (Except.ok (), updateCartItem st cid q)

/-- The body of `POST /api/create-payment-intent`. `amount` is `none` when the
field is absent from the request body. -/
def createPaymentIntentRoute (stripeConfigured : Bool) (st : State) (uid : String)
    (amount : Option ℚ) (cartItemIds : List String) : Except HErr Unit × State :=
  if !stripeConfigured then (Except.error HErr.serviceUnavailable, st)
  else
    match amount with
    | none => (Except.error HErr.badRequest, st)
    | some a =>
      if a ≤ 0 then (Except.error HErr.badRequest, st)
      else
        (Except.ok (),
         { st with paymentIntents :=
             st.paymentIntents ++ [⟨uid, round (a * 100), cartItemIds⟩] })

/-- The body of a `POST /api/create-order` request. -/
structure OrderReq where
  cartItemIds : List String
  shippingAddress : String
  paymentIntentId : String
deriving Repr, DecidableEq

/-- The per-line order-item data built inside `validCartItems.map` (before
`orderId` is attached). -/
structure PreOrderItem where
  productId : String
  sellerId : String
  price : ℚ
  quantity : Int
  carbonSaved : ℚ
deriving Repr, DecidableEq

/-- The single pass of `validCartItems.map` in `POST /api/create-order`, which
accumulates `totalAmount`, `totalCarbonSaved` and the order-item snapshots
while traversing the valid cart lines. -/
def orderAccum (lines : List CartLine) : ℚ × ℚ × List PreOrderItem :=
  lines.foldl
    (fun acc x =>
      (acc.1 + x.product.price * (x.item.quantity : ℚ),
       acc.2.1 + x.product.carbonSaved * (x.item.quantity : ℚ),
       acc.2.2 ++ [⟨x.product.id, x.product.sellerId, x.product.price,
                    x.item.quantity, x.product.carbonSaved⟩]))
    (0, 0, [])

/-- Attach the generated order id, as `orderItemsData.map(item => ({...item, orderId}))`. -/
def attachOrderId (oid : String) (i : PreOrderItem) : OrderItemRow :=
  ⟨oid, i.productId, i.sellerId, i.price, i.quantity, i.carbonSaved⟩

/-- The `validCartItems` of `POST /api/create-order`: the caller's fetched cart
filtered to the client-supplied ids,
`cartItems.filter(item => cartItemIds.includes(item.id))`. -/
def validLines (st : State) (uid : String) (req : OrderReq) : List CartLine :=
  (getCartItems st uid).filter fun x => req.cartItemIds.contains x.item.id

/-- `POST /api/create-order`: re-fetch the caller's cart, filter to the
requested cart-item ids, 400 when the filtered subset is empty, otherwise
create the order row (status `"confirmed"`) and its order items, add the
computed carbon total to the buyer's counter, and delete the submitted
cart-item ids one at a time.  `freshOrderId` stands for the database-generated
order id. -/
def createOrderRoute (st : State) (uid : String) (req : OrderReq)
    (freshOrderId : String) : Except HErr String × State :=
  let valid := validLines st uid req
  if valid.isEmpty then (Except.error HErr.badRequest, st)
  else
    let acc := orderAccum valid
    let st1 := createOrder st
      ⟨freshOrderId, uid, acc.1, "confirmed", req.shippingAddress,
       req.paymentIntentId, some acc.2.1⟩
    let st2 := createOrderItems st1 (acc.2.2.map (attachOrderId freshOrderId))
    let st3 := updateUserCarbonSaved st2 uid acc.2.1
    let st4 := req.cartItemIds.foldl removeFromCart st3
    (Except.ok freshOrderId, st4)

/-! ### Client-side computations -/

/-- The cart page's quantity stepper: `Math.max(1, currentQuantity + change)`. -/
def clientNewQuantity (currentQuantity change : Int) : Int :=
  max 1 (currentQuantity + change)

/-- `ImpactMetrics`: `orders.reduce((sum, order) => sum + parseFloat(order.totalCarbonSaved || "0"), 0)`. -/
def ordersCarbonTotal (os : List OrderRow) : ℚ :=
  os.foldl (fun s o => s + o.totalCarbonSaved.getD 0) 0

/-- `ImpactMetrics`: `totalCarbonSaved / 22` (trees-worth of CO₂ absorption). -/
def treesEquivalent (os : List OrderRow) : ℚ :=
  ordersCarbonTotal os / 22

/-- `ImpactMetrics`: `totalCarbonSaved * 50` (litres of water). -/
def waterSavedMetric (os : List OrderRow) : ℚ :=
  ordersCarbonTotal os * 50

/-- `ImpactMetrics`: `totalCarbonSaved * 2.3` (kWh of energy). -/
def energySavedMetric (os : List OrderRow) : ℚ :=
  ordersCarbonTotal os * (23 / 10)

/-! ### The system's mutating operations, as one step type (for the
carbon-counter invariant) -/

/-- One mutating operation of the REST surface: each constructor is one of
the state-changing route handlers of `registerRoutes`. -/
inductive Op where
  | fetchProduct (pid : String)
  | newProduct (p : ProductRow)
  | editProduct (pid : String) (u : ProductUpdate)
  | dropProduct (pid : String)
  | cartAdd (c : CartItemRow)
  | cartPut (cid : String) (q : Int)
  | cartDelete (cid : String)
  | paymentIntent (stripeConfigured : Bool) (uid : String) (amount : Option ℚ)
      (cartItemIds : List String)
  | placeOrder (uid : String) (req : OrderReq) (freshOrderId : String)
deriving Repr, DecidableEq

/-- The state effect of one operation. -/
def applyOp (st : State) : Op → State
  | Op.fetchProduct pid => (getProductRoute st pid).2
  | Op.newProduct p => createProduct st p
  | Op.editProduct pid u => updateProduct st pid u
  | Op.dropProduct pid => deleteProduct st pid
  | Op.cartAdd c => addToCart st c
  | Op.cartPut cid q => (putCartRoute st cid q).2
  | Op.cartDelete cid => removeFromCart st cid
  | Op.paymentIntent cfg uid amount ids => (createPaymentIntentRoute cfg st uid amount ids).2
  | Op.placeOrder uid req fid => (createOrderRoute st uid req fid).2

/-- The carbon-saved counter of a user as stored (0 when the user row is absent). -/
def userCarbon (st : State) (uid : String) : ℚ :=
  ((st.users.find? fun u => decide (u.id = uid)).map UserRow.totalCarbonSaved).getD 0

/-! ### Specification-side summation forms -/

/-- One cart line's price subtotal, `price × quantity`. -/
def lineAmount (x : CartLine) : ℚ :=
  x.product.price * (x.item.quantity : ℚ)

/-- One cart line's carbon subtotal, `carbonSaved × quantity`. -/
def lineCarbon (x : CartLine) : ℚ :=
  x.product.carbonSaved * (x.item.quantity : ℚ)

/-- The per-line snapshot of product data into an order-item record. -/
def preSnapshot (x : CartLine) : PreOrderItem :=
  ⟨x.product.id, x.product.sellerId, x.product.price, x.item.quantity,
   x.product.carbonSaved⟩

/-- Σ price×quantity over a list of cart lines. -/
def linesAmount (ls : List CartLine) : ℚ :=
  (ls.map lineAmount).sum

/-- Σ carbonSaved×quantity over a list of cart lines. -/
def linesCarbon (ls : List CartLine) : ℚ :=
  (ls.map lineCarbon).sum

/-! ### Concrete example data (used by witnesses and counterexamples) -/

/-- The spec's worked example: buyer `u1`, seller `s1`, product `p1` at $10
saving 3 kg CO₂, product `p2` at $5 saving 7 kg, cart rows `a` (p1, qty 2)
and `b` (p2, qty 1). -/
def exSt : State :=
  ⟨[⟨"u1", 0⟩, ⟨"s1", 0⟩],
   [⟨"p1", "s1", "P1", 10, 3, true, 0⟩, ⟨"p2", "s1", "P2", 5, 7, true, 0⟩],
   [⟨"a", "u1", "p1", 2⟩, ⟨"b", "u1", "p2", 1⟩],
   [], [], []⟩

/-- The worked example's order request: cart-item ids `[a, b]`. -/
def exReq : OrderReq := ⟨["a", "b"], "addr", "pi_1"⟩

/-- A state whose cart also holds a row `c2` owned by another user `u2`, and a
row `d` of `u1` pointing at an unavailable product `p3`. -/
def exSt2 : State :=
  ⟨[⟨"u1", 0⟩, ⟨"u2", 0⟩, ⟨"s1", 0⟩],
   [⟨"p1", "s1", "P1", 10, 3, true, 0⟩, ⟨"p2", "s1", "P2", 5, 7, true, 0⟩,
    ⟨"p3", "s1", "P3", 4, 1, false, 0⟩],
   [⟨"a", "u1", "p1", 2⟩, ⟨"b", "u1", "p2", 1⟩, ⟨"c2", "u2", "p1", 1⟩,
    ⟨"d", "u1", "p3", 1⟩],
   [], [], []⟩

/-! ### Helper lemmas -/

/-- A left fold that adds `f` of each element equals the initial value plus the
summed map. -/
theorem foldl_add_map {α : Type} (f : α → ℚ) (l : List α) :
    ∀ a : ℚ, l.foldl (fun s o => s + f o) a = a + (l.map f).sum := by
  induction l with
  | nil => intro a; simp
  | cons x xs ih => intro a; simp [ih, add_assoc]

/-- The single accumulating pass of the order route computes exactly the two
sums and the list of per-line snapshots. -/
theorem orderAccum_eq (ls : List CartLine) :
    orderAccum ls = (linesAmount ls, linesCarbon ls, ls.map preSnapshot) := by
  suffices h : ∀ (a b : ℚ) (pre : List PreOrderItem),
      ls.foldl
        (fun acc x =>
          (acc.1 + x.product.price * (x.item.quantity : ℚ),
           acc.2.1 + x.product.carbonSaved * (x.item.quantity : ℚ),
           acc.2.2 ++ [⟨x.product.id, x.product.sellerId, x.product.price,
                        x.item.quantity, x.product.carbonSaved⟩]))
        (a, b, pre)
      = (a + linesAmount ls, b + linesCarbon ls, pre ++ ls.map preSnapshot) by
    simpa [orderAccum] using h 0 0 []
  induction ls with
  | nil => intro a b pre; simp [linesAmount, linesCarbon]
  | cons x xs ih =>
    intro a b pre
    simp [ih, linesAmount, linesCarbon, lineAmount, lineCarbon, preSnapshot,
      add_assoc]

/-- Deleting a list of cart-item ids one at a time filters the cart down to
the rows whose id is not in the list, and changes nothing else. -/
theorem foldl_removeFromCart (ids : List String) :
    ∀ st : State, ids.foldl removeFromCart st
      = { st with cartItems := st.cartItems.filter fun c => decide (c.id ∉ ids) } := by
  induction ids with
  | nil => intro st; simp
  | cons i is ih =>
    intro st
    simp only [List.foldl_cons, ih, removeFromCart, List.filter_filter]
    congr 1
    apply List.filter_congr
    intro c _
    by_cases h : c.id = i <;> by_cases h2 : c.id ∈ is <;> simp [h, h2]

/-- Adding a non-negative delta to one user's carbon counter never decreases
any user's stored counter. -/
theorem userCarbon_update_mono (st : State) (target uid : String) (d : ℚ)
    (hd : 0 ≤ d) :
    userCarbon st uid ≤ userCarbon (updateUserCarbonSaved st target d) uid := by
  simp only [userCarbon, updateUserCarbonSaved]
  induction st.users with
  | nil => simp
  | cons u us ih =>
    simp only [List.map_cons]
    have hid : (if u.id = target then
        { u with totalCarbonSaved := u.totalCarbonSaved + d } else u).id = u.id := by
      split <;> rfl
    have hle : u.totalCarbonSaved ≤ (if u.id = target then
        { u with totalCarbonSaved := u.totalCarbonSaved + d } else u).totalCarbonSaved := by
      split
      · show u.totalCarbonSaved ≤ u.totalCarbonSaved + d
        linarith
      · exact le_refl _
    by_cases h2 : u.id = uid
    · rw [List.find?_cons_of_pos _ (by simp [h2]),
        List.find?_cons_of_pos _ (by simp only [hid]; simp [h2])]
      simpa using hle
    · rw [List.find?_cons_of_neg _ (by simp [h2]),
        List.find?_cons_of_neg _ (by simp only [hid]; simp [h2])]
      exact ih

/-- Membership in `getCartItems`: every returned line is a cart row of the
user joined with an existing, available product matching its `productId`. -/
theorem mem_getCartItems {st : State} {uid : String} {x : CartLine}
    (hx : x ∈ getCartItems st uid) :
    x.item ∈ st.cartItems ∧ x.item.userId = uid ∧ x.product ∈ st.products ∧
    x.product.id = x.item.productId ∧ x.product.available = true := by
  simp only [getCartItems] at hx
  obtain ⟨c, hc, hfc⟩ := List.mem_filterMap.mp hx
  split at hfc
  · rename_i huid
    split at hfc
    · rename_i p hfind
      split at hfc
      · cases hfc
        have hpred := List.find?_some hfind
        have hmem := List.mem_of_find?_eq_some hfind
        simp only [Bool.and_eq_true, decide_eq_true_eq] at hpred
        exact ⟨hc, huid, hmem, hpred.1, hpred.2⟩
      · exact absurd hfc (by simp)
    · exact absurd hfc (by simp)
  · exact absurd hfc (by simp)

/-! ### Claims -/

/-- C1: for every order-placement request whose filtered cart subset is
non-empty, the created order's `totalAmount` equals Σ price×quantity and its
`totalCarbonSaved` equals Σ carbonSaved×quantity over the selected cart
lines, and each created order item carries the product's price and
carbonSaved copied at creation time. -/
theorem C1_order_totals (st : State) (uid : String) (req : OrderReq)
    (fid : String) (h : validLines st uid req ≠ []) :
    (createOrderRoute st uid req fid).1 = Except.ok fid ∧
    (createOrderRoute st uid req fid).2.orders
      = st.orders ++ [⟨fid, uid, linesAmount (validLines st uid req), "confirmed",
          req.shippingAddress, req.paymentIntentId,
          some (linesCarbon (validLines st uid req))⟩] ∧
    (createOrderRoute st uid req fid).2.orderItems
      = st.orderItems
        ++ (validLines st uid req).map fun x => attachOrderId fid (preSnapshot x) := by
  have hne : (validLines st uid req).isEmpty = false := by
    simpa [List.isEmpty_iff] using h
  simp only [createOrderRoute, hne, Bool.false_eq_true, if_false, orderAccum_eq,
    foldl_removeFromCart, updateUserCarbonSaved, createOrderItems, createOrder,
    List.map_map]
  simp [Function.comp]

/-- C1 witness: the spec's worked example — cart `{a: P1 qty 2 at $10,
b: P2 qty 1 at $5}` with requested ids `[a, b]` yields `totalAmount = 25` and
`totalCarbonSaved = 2×3 + 7 = 13`. -/
theorem C1_order_totals_witness :
    (createOrderRoute exSt "u1" exReq "o1").1 = Except.ok "o1" ∧
    (createOrderRoute exSt "u1" exReq "o1").2.orders
      = [⟨"o1", "u1", 25, "confirmed", "addr", "pi_1", some (2 * 3 + 7)⟩] := by
  have h := C1_order_totals exSt "u1" exReq "o1" (by decide)
  have hval : validLines exSt "u1" exReq
      = [⟨⟨"a", "u1", "p1", 2⟩, ⟨"p1", "s1", "P1", 10, 3, true, 0⟩⟩,
         ⟨⟨"b", "u1", "p2", 1⟩, ⟨"p2", "s1", "P2", 5, 7, true, 0⟩⟩] := by decide
  refine ⟨h.1, ?_⟩
  rw [h.2.1, hval]
  norm_num [linesAmount, linesCarbon, lineAmount, lineCarbon, exSt, exReq]

/-- C2: an order-placement request whose `cartItemIds` are disjoint from the
caller's current cart returns a 400-class error and leaves the state — orders,
order items, carbon counters and cart — unchanged. -/
theorem C2_disjoint_ids (st : State) (uid : String) (req : OrderReq)
    (fid : String)
    (h : ∀ x ∈ getCartItems st uid, x.item.id ∉ req.cartItemIds) :
    createOrderRoute st uid req fid = (Except.error HErr.badRequest, st) := by
  have hnil : validLines st uid req = [] := by
    rw [validLines, List.filter_eq_nil_iff]
    intro x hx
    simpa using h x hx
  simp [createOrderRoute, hnil]

/-- C2 witness: requesting ids `[zz]`, absent from `u1`'s cart, yields a 400
error and the untouched example state. -/
theorem C2_disjoint_ids_witness :
    createOrderRoute exSt "u1" ⟨["zz"], "addr", "pi_2"⟩ "o9"
      = (Except.error HErr.badRequest, exSt) :=
  C2_disjoint_ids exSt "u1" ⟨["zz"], "addr", "pi_2"⟩ "o9" (by decide)

/-- C4: on successful order placement, the cart-clearing loop deletes every
cart row whose id appears in the client-supplied `cartItemIds` list — also
ids filtered out of the billed subset (other users' rows, rows with
unavailable products), while a missing id is a no-op and unlisted rows are
untouched. -/
theorem C4_clears_submitted_ids (st : State) (uid : String) (req : OrderReq)
    (fid : String) (h : validLines st uid req ≠ []) :
    (createOrderRoute st uid req fid).2.cartItems
      = st.cartItems.filter fun c => decide (c.id ∉ req.cartItemIds) := by
  have hne : (validLines st uid req).isEmpty = false := by
    simpa [List.isEmpty_iff] using h
  simp only [createOrderRoute, hne, Bool.false_eq_true, if_false,
    foldl_removeFromCart, updateUserCarbonSaved, createOrderItems, createOrder]

/-- C4 witness: with `u1` billing only lines `a` and `b`, the submitted list
`[a, b, c2, d, zz]` also deletes `c2` (owned by `u2`) and `d` (unavailable
product), and the missing id `zz` is a no-op — the cart ends empty. -/
theorem C4_clears_submitted_ids_witness :
    (createOrderRoute exSt2 "u1" ⟨["a", "b", "c2", "d", "zz"], "addr", "pi_3"⟩
        "o2").2.cartItems = [] :=
  (C4_clears_submitted_ids exSt2 "u1" ⟨["a", "b", "c2", "d", "zz"], "addr", "pi_3"⟩
    "o2" (by decide)).trans (by decide)

/-- C3 counterexample: the cart update accepted through `PUT /api/cart/:id`
has no server-side validation, so an update with quantity 0 persists 0 — it
is false that every accepted update leaves the persisted quantity at least 1. -/
theorem C3_counterexample :
    ¬ ∀ c ∈ (putCartRoute exSt "a" 0).2.cartItems, 1 ≤ c.quantity := by decide

/-- C3 amended: `PUT /api/cart/:id` persists exactly the client-supplied
quantity with no lower bound — values below 1 are stored as-is; only the
client UI's stepper clamps the quantity it sends to at least 1 via
`Math.max(1, currentQuantity + change)`. -/
theorem C3_quantity_amended (st : State) (cid : String) (q : Int) :
    (∀ c, c ∈ (putCartRoute st cid q).2.cartItems → c.id = cid → c.quantity = q) ∧
    (∀ currentQuantity change : Int, 1 ≤ clientNewQuantity currentQuantity change) := by
  constructor
  · intro c hc hcid
    simp only [putCartRoute, updateCartItem] at hc
    obtain ⟨c0, _, hc0⟩ := List.mem_map.mp hc
    by_cases h : c0.id = cid
    · rw [if_pos h] at hc0
      rw [← hc0]
    · rw [if_neg h] at hc0
      exact absurd (hc0 ▸ hcid) h
  · intro currentQuantity change
    exact le_max_left 1 _

/-- C3 amended witness: updating cart row `a` to quantity 5 persists 5, and
the client stepper never computes a value below 1. -/
theorem C3_quantity_amended_witness :
    ((⟨"a", "u1", "p1", 5⟩ : CartItemRow).quantity = 5) ∧
    1 ≤ clientNewQuantity 1 (-1) :=
  ⟨(C3_quantity_amended exSt "a" 5).1 ⟨"a", "u1", "p1", 5⟩ (by decide) (by decide),
   (C3_quantity_amended exSt "a" 5).2 1 (-1)⟩

/-- C5: order rows and order-item rows are point-in-time snapshots — any
sequence of product updates (price or any other updatable field) leaves the
stored `orders` and `order_items` tables unchanged. -/
theorem C5_snapshot_frame (st : State) (upds : List (String × ProductUpdate)) :
    (upds.foldl (fun s pu => updateProduct s pu.1 pu.2) st).orders = st.orders ∧
    (upds.foldl (fun s pu => updateProduct s pu.1 pu.2) st).orderItems
      = st.orderItems := by
  induction upds generalizing st with
  | nil => exact ⟨rfl, rfl⟩
  | cons pu pus ih =>
    simp only [List.foldl_cons]
    exact (ih (updateProduct st pu.1 pu.2))

/-- C6: with the payment processor configured, a payment-intent request whose
amount is missing or ≤ 0 returns a 400-class error and leaves the state —
in particular the list of created payment intents — unchanged. -/
theorem C6_invalid_amount (st : State) (uid : String) (amount : Option ℚ)
    (cartItemIds : List String)
    (h : amount = none ∨ ∃ a, amount = some a ∧ a ≤ 0) :
    createPaymentIntentRoute true st uid amount cartItemIds
      = (Except.error HErr.badRequest, st) := by
  rcases h with h | ⟨a, ha, hle⟩
  · simp [createPaymentIntentRoute, h]
  · simp [createPaymentIntentRoute, ha, hle]

/-- C6 witness: amount 0 (and likewise a missing amount) yields a 400 error
and the untouched example state. -/
theorem C6_invalid_amount_witness :
    createPaymentIntentRoute true exSt "u1" (some 0) ["a"]
      = (Except.error HErr.badRequest, exSt) :=
  C6_invalid_amount exSt "u1" (some 0) ["a"] (Or.inr ⟨0, rfl, le_refl 0⟩)

/-- C7: fetching an existing product returns it and bumps exactly its view
counter by 1, changing nothing else; fetching an absent id returns 404 and
changes nothing; in both cases every product's view counter is
non-decreasing (and grows by at most 1). -/
theorem C7_view_counter (st : State) (pid : String) :
    (getProduct st pid = none →
      getProductRoute st pid = (Except.error HErr.notFound, st)) ∧
    (∀ pr, getProduct st pid = some pr →
      (getProductRoute st pid).1 = Except.ok pr ∧
      (getProductRoute st pid).2
        = { st with products := st.products.map fun p =>
              if p.id = pid then { p with views := p.views + 1 } else p }) ∧
    (∀ p36 ∈ (getProductRoute st pid).2.products,
      ∃ p ∈ st.products, p36.id = p.id ∧ p.views ≤ p36.views ∧
        p36.views ≤ p.views + 1) := by
  refine ⟨?_, ?_, ?_⟩
  · intro h
    simp [getProductRoute, h]
  · intro pr h
    simp [getProductRoute, h, incrementProductViews]
  · intro p36 hp
    simp only [getProductRoute] at hp
    cases h : getProduct st pid with
    | none =>
      rw [h] at hp
      exact ⟨p36, hp, rfl, le_refl _, Nat.le_succ _⟩
    | some pr =>
      rw [h] at hp
      simp only [incrementProductViews] at hp
      obtain ⟨p, hpmem, hpeq⟩ := List.mem_map.mp hp
      by_cases hid : p.id = pid
      · rw [if_pos hid] at hpeq
        exact ⟨p, hpmem, by rw [← hpeq], by rw [← hpeq]; exact Nat.le_succ _,
          by rw [← hpeq]⟩
      · rw [if_neg hid] at hpeq
        exact ⟨p, hpmem, by rw [← hpeq], by rw [← hpeq], by rw [← hpeq]; exact Nat.le_succ _⟩

/-- C7 witness: fetching `p1` returns it with its seller and bumps its view
counter from 0 to 1; fetching the absent id `zz` yields 404 and no change. -/
theorem C7_view_counter_witness :
    ((getProductRoute exSt "p1").1
        = Except.ok (⟨"p1", "s1", "P1", 10, 3, true, 0⟩, ⟨"s1", 0⟩) ∧
      (getProductRoute exSt "p1").2
        = { exSt with products := exSt.products.map fun p =>
              if p.id = "p1" then { p with views := p.views + 1 } else p }) ∧
    getProductRoute exSt "zz" = (Except.error HErr.notFound, exSt) :=
  ⟨(C7_view_counter exSt "p1").2.1 (⟨"p1", "s1", "P1", 10, 3, true, 0⟩, ⟨"s1", 0⟩)
      (by decide),
   (C7_view_counter exSt "zz").1 (by decide)⟩

/-- When every stored product has non-negative `carbonSaved` and every cart
row a non-negative quantity, the order route's computed carbon total is
non-negative. -/
theorem linesCarbon_validLines_nonneg (st : State) (uid : String) (req : OrderReq)
    (hprod : ∀ p ∈ st.products, 0 ≤ p.carbonSaved)
    (hqty : ∀ c ∈ st.cartItems, 0 ≤ c.quantity) :
    0 ≤ linesCarbon (validLines st uid req) := by
  rw [linesCarbon]
  apply List.sum_nonneg
  intro q hq
  obtain ⟨x, hx, rfl⟩ := List.mem_map.mp hq
  have hx2 : x ∈ getCartItems st uid := List.mem_of_mem_filter hx
  obtain ⟨hitem, _, hpmem, _, _⟩ := mem_getCartItems hx2
  have h2 : (0 : ℚ) ≤ (x.item.quantity : ℚ) := by exact_mod_cast hqty _ hitem
  exact mul_nonneg (hprod _ hpmem) h2

/-- C8: under the claim's assumption that stored carbon figures (and cart
quantities) are non-negative, every operation of the REST surface leaves each
user's cumulative carbon-saved counter unchanged or increases it — order
placement adds the computed total, all other operations do not touch it. -/
theorem C8_carbon_monotone (st : State)
    (hprod : ∀ p ∈ st.products, 0 ≤ p.carbonSaved)
    (hqty : ∀ c ∈ st.cartItems, 0 ≤ c.quantity)
    (op : Op) (uid : String) :
    userCarbon st uid ≤ userCarbon (applyOp st op) uid := by
  cases op with
  | fetchProduct pid =>
    cases h : getProduct st pid <;>
      simp [applyOp, getProductRoute, h, incrementProductViews, userCarbon]
  | newProduct p => simp [applyOp, createProduct, userCarbon]
  | editProduct pid u => simp [applyOp, updateProduct, userCarbon]
  | dropProduct pid => simp [applyOp, deleteProduct, userCarbon]
  | cartAdd c => simp [applyOp, addToCart, userCarbon]
  | cartPut cid q => simp [applyOp, putCartRoute, updateCartItem, userCarbon]
  | cartDelete cid => simp [applyOp, removeFromCart, userCarbon]
  | paymentIntent cfg uid2 amount ids =>
    cases cfg
    · simp [applyOp, createPaymentIntentRoute, userCarbon]
    · cases amount with
      | none => simp [applyOp, createPaymentIntentRoute, userCarbon]
      | some a =>
        by_cases hle : a ≤ 0 <;>
          simp [applyOp, createPaymentIntentRoute, hle, userCarbon]
  | placeOrder uid2 req fid =>
    by_cases he : (validLines st uid2 req).isEmpty = true
    · simp [applyOp, createOrderRoute, he]
    · have he2 : (validLines st uid2 req).isEmpty = false :=
        Bool.not_eq_true _ ▸ he
      have hd : 0 ≤ linesCarbon (validLines st uid2 req) :=
        linesCarbon_validLines_nonneg st uid2 req hprod hqty
      simp only [applyOp, createOrderRoute, he2, Bool.false_eq_true, if_false,
        orderAccum_eq, foldl_removeFromCart]
      refine le_trans (userCarbon_update_mono st uid2 uid _ hd) (le_of_eq ?_)
      simp [userCarbon, updateUserCarbonSaved, createOrderItems, createOrder]

/-- C8 witness: placing the worked example's order raises `u1`'s counter —
starting from a state with non-negative carbon figures and quantities, the
counter does not decrease. -/
theorem C8_carbon_monotone_witness :
    userCarbon exSt "u1"
      ≤ userCarbon (applyOp exSt (Op.placeOrder "u1" exReq "o1")) "u1" :=
  C8_carbon_monotone exSt (by decide) (by decide) (Op.placeOrder "u1" exReq "o1") "u1"

/-- C9: the cart listing returns only cart rows of the user joined with an
existing product marked available; a cart row whose product is unavailable is
omitted from every listing; and the order route's billed subset, being a
filter of the listing, contains only available products. -/
theorem C9_available_filter (st : State) (uid : String) :
    (∀ x ∈ getCartItems st uid,
      x.item ∈ st.cartItems ∧ x.item.userId = uid ∧ x.product ∈ st.products ∧
      x.product.id = x.item.productId ∧ x.product.available = true) ∧
    (∀ c ∈ st.cartItems,
      (∀ p ∈ st.products, p.id = c.productId → p.available = false) →
      ∀ x ∈ getCartItems st uid, x.item ≠ c) ∧
    (∀ req : OrderReq, ∀ x ∈ validLines st uid req,
      x.product.available = true) := by
  refine ⟨fun x hx => mem_getCartItems hx, ?_, ?_⟩
  · intro c _ hunavail x hx heq
    obtain ⟨_, _, hpmem, hpid, hav⟩ := mem_getCartItems hx
    rw [heq] at hpid
    have hfalse := hunavail x.product hpmem hpid
    simp [hav] at hfalse
  · intro req x hx
    exact (mem_getCartItems (List.mem_of_mem_filter hx)).2.2.2.2

/-- C9 witness: in `exSt2`, the listed line for cart row `a` has an available
product, and no listed line is the row `d`, whose product `p3` is
unavailable. -/
theorem C9_available_filter_witness :
    ((⟨⟨"a", "u1", "p1", 2⟩, ⟨"p1", "s1", "P1", 10, 3, true, 0⟩⟩ :
        CartLine).product.available = true) ∧
    ((⟨⟨"a", "u1", "p1", 2⟩, ⟨"p1", "s1", "P1", 10, 3, true, 0⟩⟩ :
        CartLine).item ≠ ⟨"d", "u1", "p3", 1⟩) :=
  ⟨((C9_available_filter exSt2 "u1").1
      ⟨⟨"a", "u1", "p1", 2⟩, ⟨"p1", "s1", "P1", 10, 3, true, 0⟩⟩
      (by decide)).2.2.2.2,
   (C9_available_filter exSt2 "u1").2.1 ⟨"d", "u1", "p3", 1⟩ (by decide)
      (by decide)
      ⟨⟨"a", "u1", "p1", 2⟩, ⟨"p1", "s1", "P1", 10, 3, true, 0⟩⟩
      (by decide)⟩

/-- C10: the displayed impact equivalents are computed from the summed carbon
total C of the listed orders by the fixed constants — trees = C / 22,
water = C × 50, energy = C × 2.3. -/
theorem C10_impact_constants (os : List OrderRow) :
    treesEquivalent os = (os.map fun o => o.totalCarbonSaved.getD 0).sum / 22 ∧
    waterSavedMetric os = (os.map fun o => o.totalCarbonSaved.getD 0).sum * 50 ∧
    energySavedMetric os
      = (os.map fun o => o.totalCarbonSaved.getD 0).sum * (23 / 10) := by
  have hC : ordersCarbonTotal os = (os.map fun o => o.totalCarbonSaved.getD 0).sum := by
    rw [ordersCarbonTotal]
    simpa using foldl_add_map (fun o => o.totalCarbonSaved.getD 0) os 0
  exact ⟨by rw [treesEquivalent, hC], by rw [waterSavedMetric, hC],
    by rw [energySavedMetric, hC]⟩

end EcoFinds
